import Mathlib

/-!
Shallow embedding of the Skill Enhancement Platform core logic:
the resource trust verifier (src/backend/utils/urlVerifier.js), the
admin resource routes (create / update / verify / toggle / delete /
restore / bulk operations), and the skill statistics engine
(skillSchema.methods.updateStatistics).  JS numbers are modelled as
rationals, JS strings as Lean strings (lists of characters), network
probes as an explicit outcome parameter, and the WHATWG URL parser as
a hostname extractor faithful on the inputs the code cares about.
-/

namespace SkillPlatform

/-- Prefix test on character lists (models JS String.prototype.startsWith). -/
def startsWithCh : List Char → List Char → Bool
  | _, [] => true
  | [], _ :: _ => false
  | c :: cs, d :: ds => c == d && startsWithCh cs ds

/-- Substring test on character lists (models JS String.prototype.includes). -/
def containsCh : List Char → List Char → Bool
  | [], needle => startsWithCh [] needle
  | c :: cs, needle => startsWithCh (c :: cs) needle || containsCh cs needle

/-- Whitespace trim on character lists (models JS String.prototype.trim). -/
def trimCh (l : List Char) : List Char :=
  ((l.dropWhile Char.isWhitespace).reverse.dropWhile Char.isWhitespace).reverse

/-- Characters that are forbidden inside a URL hostname; the WHATWG
parser used by Node throws on these (this is why a string with spaces
fails to parse even after scheme normalization). -/
def forbiddenHostChar (c : Char) : Bool :=
  c == ' ' || c == '\t' || c == '\n' || c == '\r' || c == '[' || c == ']' ||
  c == '\\' || c == '^' || c == '|' || c == '<' || c == '>'

/-- Strip an alphabetic scheme followed by the literal sequence colon
slash slash, returning the remainder; fails when the input does not
start with such a scheme (models the scheme stage of the parser on
http and https style URLs). -/
def afterScheme (l : List Char) : Option (List Char) :=
  let scheme := l.takeWhile Char.isAlpha
  match l.drop scheme.length with
  | ':' :: '/' :: '/' :: rest => if scheme.isEmpty then none else some rest
  | _ => none

/-- Hostname extraction modelling the Node URL constructor on the
fragments the verifier feeds it: authority runs up to the first slash,
question mark or hash, userinfo before a commercial at is dropped, an
optional port after a colon must be all digits, and an empty or
forbidden-character host is a parse failure (the constructor throws). -/
def parseHostCh (l : List Char) : Option (List Char) :=
  match afterScheme l with
  | none => none
  | some rest =>
    let authority := rest.takeWhile fun c => !(c == '/' || c == '?' || c == '#')
    let hostport := (authority.reverse.takeWhile fun c => !(c == '@')).reverse
    let host := hostport.takeWhile fun c => !(c == ':')
    let port := hostport.drop (host.length + 1)
    if host.isEmpty then none
    else if host.any forbiddenHostChar then none
    else if host.length < hostport.length && !port.all Char.isDigit then none
    else some host

/-- The hardcoded allow-list of known learning-content domains from
isKnownAuthenticPlatform in src/backend/utils/urlVerifier.js. -/
def authenticDomains : List String :=
  ["youtube.com", "youtu.be", "udemy.com", "coursera.org", "edx.org",
   "linkedin.com", "pluralsight.com", "skillshare.com", "khanacademy.org",
   "freecodecamp.org", "codecademy.com", "udacity.com", "medium.com",
   "github.com", "stackoverflow.com", "w3schools.com", "mdn.io",
   "developer.mozilla.org", "docs.python.org", "nodejs.org", "react.dev",
   "vuejs.org", "angular.io", "typescriptlang.org"]

/-- Drop a leading www. from a hostname (the replace of the regex
anchored at the start in isKnownAuthenticPlatform). -/
def stripLeadingWww (l : List Char) : List Char :=
  if startsWithCh l ("www.".data) then l.drop 4 else l

/-- isKnownAuthenticPlatform from src/backend/utils/urlVerifier.js:
guard against an empty string, parse the URL (returning false when the
constructor throws), lowercase the hostname, strip a leading www., and
test whether any allow-list entry occurs as a substring. -/
def isKnownAuthenticPlatform (urlString : String) : Bool :=
  if urlString = "" then false
  else
    match parseHostCh urlString.data with
    | none => false
    | some host =>
      let hostname := stripLeadingWww (host.map Char.toLower)
      authenticDomains.any fun d => containsCh hostname d.data

/-- The structured result verifyUrl resolves with:
isValid, optional statusCode, optional error message. -/
structure VerifyResult where
  isValid : Bool
  statusCode : Option Nat := none
  error : Option String := none
deriving DecidableEq

/-- Outcome of the single network reachability probe, supplied as an
explicit parameter since the network is an external collaborator:
an HTTP response with a status code, a connection-level error carrying
the Node error code and optional message, or the request timeout. -/
inductive ProbeOutcome where
  | response (status : Nat)
  | connError (code : String) (message : Option String)
  | timeout
deriving DecidableEq

/-- The error-code taxonomy of the request error handler in verifyUrl. -/
def connErrorMessage (code : String) (message : Option String) : String :=
  if code = "ENOTFOUND" then "Domain not found"
  else if code = "ECONNREFUSED" then "Connection refused"
  else if code = "ETIMEDOUT" || code = "ESOCKETTIMEDOUT" then "Request timeout"
  else if code = "CERT_HAS_EXPIRED" then "SSL certificate expired"
  else if code = "UNABLE_TO_VERIFY_LEAF_SIGNATURE" then "SSL certificate verification failed"
  else message.getD "Unknown error"

/-- The response classifier of verifyUrl: statuses from 200 up to but
excluding 400 are valid; otherwise the error carries the status. -/
def classifyResponse (status : Nat) : VerifyResult :=
  let valid : Bool := decide (200 ≤ status) && decide (status < 400)
  { isValid := valid
    statusCode := some status
    error := if valid then none else some ("HTTP " ++ toString status) }

/-- Classification of the full probe outcome. -/
def classifyProbe : ProbeOutcome → VerifyResult
  | .response status => classifyResponse status
  | .connError code message => { isValid := false, error := some (connErrorMessage code message) }
  | .timeout => { isValid := false, error := some "Request timeout" }

/-- Scheme normalization in verifyUrl: after trimming, a string that
starts with neither the http nor the https scheme gets the https
scheme prepended. -/
def normalizeUrl (s : String) : List Char :=
  let t := trimCh s.data
  if startsWithCh t ("http://".data) || startsWithCh t ("https://".data) then t
  else ("https://".data) ++ t

/-- verifyUrl from src/backend/utils/urlVerifier.js, with the probe
outcome passed explicitly.  Returns the resolved result together with
a flag recording whether the network request was dispatched at all.
The falsy-input guard fires on the empty string; then the trimmed and
scheme-normalized URL is parsed, a parse failure resolving without any
network activity; otherwise the probe outcome is classified.  The
function is total: every input resolves to a structured result. -/
def verifyUrl (urlString : String) (probe : ProbeOutcome) : VerifyResult × Bool :=
  if urlString = "" then ({ isValid := false, error := some "Invalid URL string" }, false)
  else
    match parseHostCh (normalizeUrl urlString) with
    | none => ({ isValid := false, error := some "Invalid URL format" }, false)
    | some _ => (classifyProbe probe, true)

/-- The verification decision consumed by the catalog-mutation
boundary: allow-list fast path first, otherwise the probe result. -/
def decideVerification (url : String) (probe : ProbeOutcome) : Bool :=
  isKnownAuthenticPlatform url || (verifyUrl url probe).fst.isValid

/-- Observable outcome of the resource-creation handler of
POST /api/admin/resources, restricted to the verification stage
(after the skill-exists and duplicate-URL guards have passed):
whether the resource document is created and saved, the persisted
verified flag, the surfaced verification warning, and whether the
verifyUrl network probe was dispatched. -/
structure CreateOutcome where
  created : Bool
  verified : Bool
  verificationError : Option String
  networkUsed : Bool
deriving DecidableEq

/-- The POST /api/admin/resources handler: allow-list hit sets
verified with no call to verifyUrl; otherwise verifyUrl runs and a
failure is recorded as a warning without blocking creation.  The
persisted flag is the JS expression verified or body verified or
false, with the body field absent modelled as none. -/
def createResource (url : String) (bodyVerified : Option Bool) (probe : ProbeOutcome) :
    CreateOutcome :=
  if isKnownAuthenticPlatform url then
    { created := true
      verified := true || bodyVerified.getD false
      verificationError := none
      networkUsed := false }
  else
    let vr := verifyUrl url probe
    if vr.fst.isValid then
      { created := true
        verified := true || bodyVerified.getD false
        verificationError := none
        networkUsed := vr.snd }
    else
      { created := true
        verified := false || bodyVerified.getD false
        verificationError := some (vr.fst.error.getD "URL verification failed")
        networkUsed := vr.snd }

/-- The resource state the admin routes read and write: the url and
the verified, isActive and soft-delete flags. -/
structure ResourceState where
  url : String
  verified : Bool
  isActive : Bool
  deleted : Bool
deriving DecidableEq

/-- The admin operations that act on an existing resource, with their
external inputs made explicit: update carries the optional new url,
the optional verified field of the request body, and the probe
outcome consulted when the url changes; reVerify is the explicit
PATCH verify action; the rest carry no verification input. -/
inductive AdminOp where
  | update (newUrl : Option String) (bodyVerified : Option Bool) (probe : ProbeOutcome)
  | reVerify (probe : ProbeOutcome)
  | toggleActive
  | softDelete
  | restore
  | bulkVerify
  | bulkDelete
deriving DecidableEq

/-- Effect of each admin route on the resource state, transcribed from
the handlers in the admin router.  In the update handler, a changed
url triggers the verification decision, but an explicitly supplied
body verified field always wins (the handler only fills the field in
when it is undefined); an unchanged url leaves verified alone unless
the body carries the field.  reVerify unconditionally overwrites
verified with the fresh decision.  toggle-active flips isActive;
delete and bulk-delete soft-delete; restore reactivates; bulk-verify
sets verified to true. -/
def applyOp (r : ResourceState) : AdminOp → ResourceState
  | .update newUrl bodyVerified probe =>
    let u := newUrl.getD r.url
    let urlChanged : Bool :=
      match newUrl with
      | some nu => nu != r.url
      | none => false
    let v : Bool :=
      match bodyVerified with
      | some b => b
      | none => if urlChanged then decideVerification u probe else r.verified
    { r with url := u, verified := v }
  | .reVerify probe => { r with verified := decideVerification r.url probe }
  | .toggleActive => { r with isActive := !r.isActive }
  | .softDelete => { r with isActive := false, deleted := true }
  | .restore => { r with isActive := true, deleted := false }
  | .bulkVerify => { r with verified := true }
  | .bulkDelete => { r with isActive := false, deleted := true }

/-- The learningType enumeration of the Resource schema. -/
inductive LearningType where
  | free
  | premium
  | freemium
deriving DecidableEq

/-- The fields of a Resource document that updateStatistics reads,
together with the flags its query filters on.  rating is a JS number
in the range 0 to 5; enrollmentCount defaults through the JS or
operator, modelled with an Option. -/
structure StatResource where
  learningType : LearningType
  rating : ℚ
  enrollmentCount : Option ℚ
  isActive : Bool
  verified : Bool
  deleted : Bool
deriving DecidableEq

/-- The statistics value object cached on a Skill document. -/
structure Statistics where
  totalResources : ℕ
  freeResources : ℕ
  premiumResources : ℕ
  averageRating : ℚ
  totalLearners : ℚ
  popularityScore : ℚ
deriving DecidableEq

/-- The query of updateStatistics: resources owned by the skill with
isActive true, verified true and deletedAt null.  The owning-skill
condition is implicit: the list passed in is the skill's own set. -/
def fetchActiveVerified (rs : List StatResource) : List StatResource :=
  rs.filter fun r => r.isActive && r.verified && !r.deleted

/-- Sum of the ratings of a resource list. -/
def ratingSum (rs : List StatResource) : ℚ :=
  (rs.map fun r => r.rating).sum

/-- Sum of the enrollment counters, an absent counter contributing 0. -/
def enrollmentSum (rs : List StatResource) : ℚ :=
  (rs.map fun r => r.enrollmentCount.getD 0).sum

/-- skillSchema.methods.updateStatistics: always overwrite the three
counters from the fetched set; only when the fetched set is non-empty
recompute averageRating, totalLearners and popularityScore — the
guard that avoids dividing by zero also skips those three fields
entirely, so on an empty set they keep their previous values. -/
def updateStatistics (stats : Statistics) (rs : List StatResource) : Statistics :=
  let resources := fetchActiveVerified rs
  let base : Statistics :=
    { stats with
      totalResources := resources.length
      freeResources := (resources.filter fun r => r.learningType == LearningType.free).length
      premiumResources :=
        (resources.filter fun r => r.learningType == LearningType.premium).length }
  if 0 < resources.length then
    let averageRating : ℚ := ratingSum resources / resources.length
    let totalEnrollments : ℚ := enrollmentSum resources
    { base with
      averageRating := averageRating
      totalLearners := totalEnrollments
      popularityScore :=
        (resources.length : ℚ) * 10 + averageRating * 20 + totalEnrollments / 100 }
  else base

/-- A skill statistics object holding non-zero persisted values, as
left behind by an earlier refresh over a non-empty resource set. -/
def c1staleStats : Statistics :=
  { totalResources := 3, freeResources := 2, premiumResources := 1,
    averageRating := 4, totalLearners := 250, popularityScore := 90 }

/-- An all-zero statistics object, the schema defaults of a fresh skill. -/
def zeroStats : Statistics :=
  { totalResources := 0, freeResources := 0, premiumResources := 0,
    averageRating := 0, totalLearners := 0, popularityScore := 0 }

/-- An active, verified, free resource with rating 4 and 200 enrollments. -/
def freeRated4 : StatResource :=
  { learningType := LearningType.free, rating := 4, enrollmentCount := some 200,
    isActive := true, verified := true, deleted := false }

/-- An unverified resource that the statistics query must exclude. -/
def unverifiedRes : StatResource :=
  { learningType := LearningType.premium, rating := 5, enrollmentCount := some 999,
    isActive := true, verified := false, deleted := false }

/-- Five active verified resources with average rating 4 and 1000
total learners, plus one unverified resource the query excludes. -/
def c5resources : List StatResource :=
  [freeRated4, freeRated4, freeRated4, freeRated4, freeRated4, unverifiedRes]

/-- A resource that is currently verified, on a URL outside the allow-list. -/
def c2state : ResourceState :=
  { url := "https://site-one.example/a", verified := true,
    isActive := true, deleted := false }

/-- An update operation that changes the URL to another non-allow-listed
host, carries no verified field in the body, and whose probe fails. -/
def c2updateOp : AdminOp :=
  AdminOp.update (some "https://site-two.example/a") none
    (ProbeOutcome.connError "ENOTFOUND" none)

end SkillPlatform

namespace SkillPlatform

/-- C1: updateStatistics on a skill whose active+verified resource set
is empty resets the three counters to 0 and performs no division, but
the guard skips the recomputation of averageRating, totalLearners and
popularityScore entirely, so they keep whatever stale values were
persisted before the call — here averageRating stays 4 instead of the
0 the specification requires. -/
theorem c1_empty_set_keeps_stale_average :
    updateStatistics c1staleStats [] =
      { totalResources := 0, freeResources := 0, premiumResources := 0,
        averageRating := 4, totalLearners := 250, popularityScore := 90 } ∧
    (updateStatistics c1staleStats []).totalResources = 0 ∧
    (updateStatistics c1staleStats []).averageRating ≠ 0 := by
  refine ⟨?_, ?_, ?_⟩ <;> simp [updateStatistics, fetchActiveVerified, c1staleStats]

/-- C10: updateStatistics is idempotent — for a fixed underlying
resource set, running it twice in a row produces exactly the
statistics of the first run, whatever the starting statistics were. -/
theorem c10_updateStatistics_idempotent (stats : Statistics) (rs : List StatResource) :
    updateStatistics (updateStatistics stats rs) rs = updateStatistics stats rs := by
  unfold updateStatistics
  by_cases h : 0 < (fetchActiveVerified rs).length <;> simp [h]

/-- C5: when the fetched active+verified set is non-empty, the
persisted popularityScore is 10 times the resource count plus 20
times the mean rating plus the summed enrollments divided by 100. -/
theorem c5_popularityScore_formula (stats : Statistics) (rs : List StatResource)
    (h : fetchActiveVerified rs ≠ []) :
    (updateStatistics stats rs).popularityScore =
      10 * ((fetchActiveVerified rs).length : ℚ) +
        20 * (ratingSum (fetchActiveVerified rs) / ((fetchActiveVerified rs).length : ℚ)) +
        enrollmentSum (fetchActiveVerified rs) / 100 := by
  have hlen : 0 < (fetchActiveVerified rs).length := List.length_pos.mpr h
  simp only [updateStatistics, hlen, if_pos]
  ring

/-- Witness for C5 at the regression instance of the specification:
five resources with average rating 4 and 1000 total learners yield a
popularity score of exactly 140. -/
theorem c5_popularityScore_formula_witness :
    (updateStatistics zeroStats c5resources).popularityScore = 140 := by
  have h := c5_popularityScore_formula zeroStats c5resources (by decide)
  rw [h]
  norm_num [fetchActiveVerified, ratingSum, enrollmentSum, c5resources,
    freeRated4, unverifiedRes]

/-- C2 counterexample: a currently verified resource is demoted to
unverified by the plain update route — not by the explicit re-verify
action — when the update changes the URL to a non-allow-listed host,
the request body carries no verified field, and the probe fails. -/
theorem c2_update_demotes_verified :
    c2state.verified = true ∧
    (applyOp c2state c2updateOp).verified = false := by decide

/-- C2 amended: a verified resource loses its verified flag only
through one of three paths — the explicit re-verify action whose
verification decision fails, an update whose request body explicitly
carries verified equal to false, or an update that changes the URL
with no verified field in the body and a failing verification
decision.  Every other admin operation preserves a true verified
flag. -/
theorem c2_verified_demotion_paths (r : ResourceState) (op : AdminOp)
    (hv : r.verified = true) (hd : (applyOp r op).verified = false) :
    (∃ p, op = AdminOp.reVerify p ∧ decideVerification r.url p = false) ∨
    (∃ u p, op = AdminOp.update u (some false) p) ∨
    (∃ u p, op = AdminOp.update (some u) none p ∧ u ≠ r.url ∧
      decideVerification u p = false) := by
  cases op with
  | update newUrl bodyVerified probe =>
    cases bodyVerified with
    | some b =>
      cases b
      · exact Or.inr (Or.inl ⟨newUrl, probe, rfl⟩)
      · simp [applyOp] at hd
    | none =>
      cases newUrl with
      | none => simp [applyOp, hv] at hd
      | some nu =>
        by_cases hu : nu = r.url
        · simp [applyOp, hu, hv] at hd
        · refine Or.inr (Or.inr ⟨nu, probe, rfl, hu, ?_⟩)
          simpa [applyOp, hu] using hd
  | reVerify probe =>
    exact Or.inl ⟨probe, rfl, by simpa [applyOp] using hd⟩
  | toggleActive => simp [applyOp, hv] at hd
  | softDelete => simp [applyOp, hv] at hd
  | restore => simp [applyOp, hv] at hd
  | bulkVerify => simp [applyOp] at hd
  | bulkDelete => simp [applyOp, hv] at hd

/-- Witness for C2 amended: the explicit re-verify action with a
failing probe on a verified resource lands in one of the three
demotion paths. -/
theorem c2_verified_demotion_paths_witness :
    (∃ p, AdminOp.reVerify (ProbeOutcome.connError "ENOTFOUND" none) = AdminOp.reVerify p ∧
      decideVerification c2state.url p = false) ∨
    (∃ u p, AdminOp.reVerify (ProbeOutcome.connError "ENOTFOUND" none) =
      AdminOp.update u (some false) p) ∨
    (∃ u p, AdminOp.reVerify (ProbeOutcome.connError "ENOTFOUND" none) =
      AdminOp.update (some u) none p ∧ u ≠ c2state.url ∧
      decideVerification u p = false) :=
  c2_verified_demotion_paths c2state
    (AdminOp.reVerify (ProbeOutcome.connError "ENOTFOUND" none)) (by decide) (by decide)

/-- C3 counterexample: a creation request whose URL is not on the
allow-list and whose probe fails is persisted with verified equal to
true when the request body carries verified equal to true — the claim
that every such creation persists verified equal to false is false. -/
theorem c3_bodyVerified_true_overrides_failed_probe :
    isKnownAuthenticPlatform "https://dead-host-offline.test/course" = false ∧
    (verifyUrl "https://dead-host-offline.test/course"
        (ProbeOutcome.connError "ECONNREFUSED" none)).fst.isValid = false ∧
    (createResource "https://dead-host-offline.test/course" (some true)
        (ProbeOutcome.connError "ECONNREFUSED" none)).verified = true := by decide

/-- C3 amended: when the URL is not on the allow-list, the probe
fails, and the request body does not carry verified equal to true,
the creation still goes through — it does not reject — persisting the
resource with verified equal to false and surfacing the verification
error as a warning. -/
theorem c3_failed_probe_creates_unverified (url : String) (bodyVerified : Option Bool)
    (probe : ProbeOutcome)
    (hk : isKnownAuthenticPlatform url = false)
    (hp : (verifyUrl url probe).fst.isValid = false)
    (hb : bodyVerified.getD false = false) :
    (createResource url bodyVerified probe).created = true ∧
    (createResource url bodyVerified probe).verified = false ∧
    (createResource url bodyVerified probe).verificationError.isSome = true := by
  simp [createResource, hk, hp, hb]

/-- Witness for C3 amended: creating a resource on an unreachable
non-allow-listed host with no verified field in the body. -/
theorem c3_failed_probe_creates_unverified_witness :
    (createResource "unreachable-site-776.test" none
      (ProbeOutcome.connError "ETIMEDOUT" none)).created = true ∧
    (createResource "unreachable-site-776.test" none
      (ProbeOutcome.connError "ETIMEDOUT" none)).verified = false ∧
    (createResource "unreachable-site-776.test" none
      (ProbeOutcome.connError "ETIMEDOUT" none)).verificationError.isSome = true :=
  c3_failed_probe_creates_unverified "unreachable-site-776.test" none
    (ProbeOutcome.connError "ETIMEDOUT" none) (by decide) (by decide) (by decide)

/-- C4: the persisted verified flag of a created resource is the
logical OR of the verification decision and the request body verified
field (absent defaulting to false); in particular a request carrying
verified equal to true on a non-allow-listed URL whose probe fails is
nevertheless persisted verified, bypassing the verification outcome. -/
theorem c4_verified_is_or_of_decision_and_body :
    (∀ (url : String) (bodyVerified : Option Bool) (probe : ProbeOutcome),
        (createResource url bodyVerified probe).verified =
          (decideVerification url probe || bodyVerified.getD false)) ∧
    (isKnownAuthenticPlatform "http://not-a-real-domain-xyz123.test" = false ∧
      (verifyUrl "http://not-a-real-domain-xyz123.test"
          (ProbeOutcome.connError "ENOTFOUND" none)).fst.isValid = false ∧
      (createResource "http://not-a-real-domain-xyz123.test" (some true)
          (ProbeOutcome.connError "ENOTFOUND" none)).verified = true) := by
  refine ⟨?_, by decide, by decide, by decide⟩
  intro url bodyVerified probe
  by_cases hk : isKnownAuthenticPlatform url = true
  · simp [createResource, decideVerification, hk]
  · simp only [Bool.not_eq_true] at hk
    by_cases hp : (verifyUrl url probe).fst.isValid = true
    · simp [createResource, decideVerification, hk, hp]
    · simp only [Bool.not_eq_true] at hp
      simp [createResource, decideVerification, hk, hp]

/-- C6: a creation request whose URL is on the allow-list is persisted
with verified equal to true and the network probe is never
dispatched, whatever the body carries and whatever the probe would
have returned. -/
theorem c6_allowlist_fast_path (url : String) (bodyVerified : Option Bool)
    (probe : ProbeOutcome) (h : isKnownAuthenticPlatform url = true) :
    (createResource url bodyVerified probe).verified = true ∧
    (createResource url bodyVerified probe).networkUsed = false := by
  simp [createResource, h]

/-- Witness for C6 at a known-platform URL. -/
theorem c6_allowlist_fast_path_witness :
    isKnownAuthenticPlatform "https://www.youtube.com/watch?v=x" = true ∧
    (createResource "https://www.youtube.com/watch?v=x" none
      ProbeOutcome.timeout).verified = true ∧
    (createResource "https://www.youtube.com/watch?v=x" none
      ProbeOutcome.timeout).networkUsed = false :=
  ⟨by decide, c6_allowlist_fast_path "https://www.youtube.com/watch?v=x" none
    ProbeOutcome.timeout (by decide)⟩

/-- C7 counterexample: the empty string fails to parse even after
scheme normalization, yet verifyUrl resolves it with the error
message Invalid URL string — from the falsy-input guard — not the
Invalid URL format message the claim requires for every unparsable
input. -/
theorem c7_empty_string_error_message :
    parseHostCh (normalizeUrl "") = none ∧
    (verifyUrl "" ProbeOutcome.timeout).fst.error = some "Invalid URL string" ∧
    (verifyUrl "" ProbeOutcome.timeout).fst.error ≠ some "Invalid URL format" := by decide

/-- C7 amended: every non-empty input that fails to parse even after
scheme normalization resolves to the structured result with isValid
false and error Invalid URL format, without dispatching any network
request; the empty string resolves the same way except that its error
message is Invalid URL string.  verifyUrl is total, so every input
resolves to a structured result rather than throwing. -/
theorem c7_invalid_format_no_network (s : String) (probe : ProbeOutcome)
    (hne : s ≠ "") (hp : parseHostCh (normalizeUrl s) = none) :
    verifyUrl s probe =
      ({ isValid := false, statusCode := none, error := some "Invalid URL format" },
        false) := by
  simp [verifyUrl, hne, hp]

/-- Witness for C7 amended at an input with spaces, which no scheme
normalization can repair. -/
theorem c7_invalid_format_no_network_witness :
    verifyUrl "not a url" ProbeOutcome.timeout =
      ({ isValid := false, statusCode := none, error := some "Invalid URL format" },
        false) :=
  c7_invalid_format_no_network "not a url" ProbeOutcome.timeout (by decide) (by decide)

/-- C8: whenever the probe of verifyUrl actually receives an HTTP
response, the resolved result is valid exactly when the status lies
in the 2xx or 3xx range, the statusCode field carries the status, and
a 4xx or 5xx status produces the error HTTP followed by the status;
concretely 200 classifies as valid with no error and 404 as invalid
with error HTTP 404. -/
theorem c8_response_classification :
    (∀ (s : String) (status : ℕ),
        (verifyUrl s (ProbeOutcome.response status)).snd = true →
        ((verifyUrl s (ProbeOutcome.response status)).fst.isValid = true ↔
            200 ≤ status ∧ status < 400) ∧
        (verifyUrl s (ProbeOutcome.response status)).fst.statusCode = some status ∧
        (400 ≤ status →
          (verifyUrl s (ProbeOutcome.response status)).fst.error =
            some ("HTTP " ++ toString status))) ∧
    classifyResponse 200 = { isValid := true, statusCode := some 200, error := none } ∧
    classifyResponse 404 =
      { isValid := false, statusCode := some 404, error := some "HTTP 404" } := by
  refine ⟨?_, by decide, by decide⟩
  intro s status h
  by_cases hs : s = ""
  · simp [verifyUrl, hs] at h
  · cases hp : parseHostCh (normalizeUrl s) with
    | none => simp [verifyUrl, hs, hp] at h
    | some host =>
      simp only [verifyUrl, hs, if_false, hp, classifyProbe, classifyResponse]
      refine ⟨?_, by trivial, ?_⟩
      · simp [Bool.and_eq_true, decide_eq_true_eq]
      · intro h4
        have hlt : ¬(status < 400) := by omega
        simp [hlt]

/-- Witness for C8 at a reachable host answering 404. -/
theorem c8_response_classification_witness :
    (verifyUrl "https://example-check.test/a" (ProbeOutcome.response 404)).fst.error =
      some ("HTTP " ++ toString 404) :=
  (c8_response_classification.1 "https://example-check.test/a" 404 (by decide)).2.2
    (by decide)

/-- C9: isKnownAuthenticPlatform is a total function that accepts the
youtube watch URL, rejects the unknown test domain, rejects the
unparsable input without throwing, returns false on every parse
failure, and on every successful parse returns exactly the substring
test of the allow-list entries against the lowercased hostname with a
leading www. stripped. -/
theorem c9_isKnownAuthenticPlatform_spec :
    isKnownAuthenticPlatform "https://www.youtube.com/watch?v=x" = true ∧
    isKnownAuthenticPlatform "http://not-a-real-domain-xyz123.test" = false ∧
    isKnownAuthenticPlatform "not a url" = false ∧
    (∀ s : String, parseHostCh s.data = none → isKnownAuthenticPlatform s = false) ∧
    (∀ (s : String) (host : List Char), parseHostCh s.data = some host →
        isKnownAuthenticPlatform s =
          authenticDomains.any fun d =>
            containsCh (stripLeadingWww (host.map Char.toLower)) d.data) := by
  refine ⟨by decide, by decide, by decide, ?_, ?_⟩
  · intro s hp
    by_cases hs : s = "" <;> simp [isKnownAuthenticPlatform, hs, hp]
  · intro s host hp
    have hs : s ≠ "" := by
      intro h
      subst h
      simp [parseHostCh, afterScheme] at hp
    simp [isKnownAuthenticPlatform, hs, hp]

/-- Witness for C9 on the unparsable input. -/
theorem c9_isKnownAuthenticPlatform_spec_witness :
    isKnownAuthenticPlatform "not a url" = false :=
  c9_isKnownAuthenticPlatform_spec.2.2.2.1 "not a url" (by decide)

end SkillPlatform
